import Mathlib

/-!
Shallow embedding of the client-side operation-coalescing layer of
`neptune-client`:

* `src/neptune/internal/backends/operations_preprocessor.py`
  (`OperationsPreprocessor`, `_OperationsAccumulator`, the modifier
  combinators),
* `src/neptune/internal/backends/neptune_backend_mock.py`
  (`NeptuneBackendMock.execute_operations`, `_execute_operation`,
  `NewValueOpVisitor`),
* `src/neptune/internal/threading/daemon.py`
  (`Daemon.ConnectionRetryWrapper`).

Python floats are represented by `Int` (no claim depends on float
arithmetic: payloads are only stored and concatenated), Python `set` by
`Finset String`, raised exceptions by an explicit error component of the
result, and mutable objects by explicit state passing.
-/

/-- Modelled from the spec: `neptune.internal.utils.paths.path_to_str`
is not under `src/`; per §3 of the spec the canonical string of a path
joins its segments with "/". -/
def path_to_str (path : List String) : String :=
  String.intercalate "/" path

/-- A float-series data point, as `LogFloats.ValueType` (`operation.py`
is not under `src/`): a numeric value with step and timestamp, used by
the accumulator only as opaque payload (`op.values` concatenation). -/
structure FloatPoint where
  value : Int
  step : Option Int
  ts : Int
deriving DecidableEq, Repr

/-- A string-series data point, as `LogStrings.ValueType`. -/
structure StringPoint where
  value : String
  step : Option Int
  ts : Int
deriving DecidableEq, Repr

/-- The tagged union of operations, one constructor per `Operation`
subclass handled by `OperationVisitor` (`operation.py` itself is not
under `src/`; the constructors and their payload fields are those the
code under `src/` dispatches on and reads: `op.path`, `op.value`,
`op.values`, `op.min`, `op.max`, `op.unit`). -/
inductive Op where
  | assignFloat (path : List String) (value : Int)
  | assignInt (path : List String) (value : Int)
  | assignBool (path : List String) (value : Bool)
  | assignString (path : List String) (value : String)
  | assignDatetime (path : List String) (value : Int)
  | logFloats (path : List String) (values : List FloatPoint)
  | logStrings (path : List String) (values : List StringPoint)
  | clearFloatLog (path : List String)
  | clearStringLog (path : List String)
  | addStrings (path : List String) (values : Finset String)
  | removeStrings (path : List String) (values : Finset String)
  | clearStringSet (path : List String)
  | configFloatSeries (path : List String) (min : Option Int)
      (max : Option Int) (unit : Option String)
  | deleteAttribute (path : List String)
  | copyAttribute (path : List String)
deriving DecidableEq

/-- `op.path`, common to every `Operation` subclass. -/
def Op.path : Op → List String
  | .assignFloat p _ => p
  | .assignInt p _ => p
  | .assignBool p _ => p
  | .assignString p _ => p
  | .assignDatetime p _ => p
  | .logFloats p _ => p
  | .logStrings p _ => p
  | .clearFloatLog p => p
  | .clearStringLog p => p
  | .addStrings p _ => p
  | .removeStrings p _ => p
  | .clearStringSet p => p
  | .configFloatSeries p _ _ _ => p
  | .deleteAttribute p => p
  | .copyAttribute p => p

/-- `op.__class__.__name__`, used in accumulator error messages. -/
def Op.className : Op → String
  | .assignFloat _ _ => "AssignFloat"
  | .assignInt _ _ => "AssignInt"
  | .assignBool _ _ => "AssignBool"
  | .assignString _ _ => "AssignString"
  | .assignDatetime _ _ => "AssignDatetime"
  | .logFloats _ _ => "LogFloats"
  | .logStrings _ _ => "LogStrings"
  | .clearFloatLog _ => "ClearFloatLog"
  | .clearStringLog _ => "ClearStringLog"
  | .addStrings _ _ => "AddStrings"
  | .removeStrings _ _ => "RemoveStrings"
  | .clearStringSet _ => "ClearStringSet"
  | .configFloatSeries _ _ _ _ => "ConfigFloatSeries"
  | .deleteAttribute _ => "DeleteAttribute"
  | .copyAttribute _ => "CopyAttribute"

/-- `_DataType` enum of `operations_preprocessor.py`. -/
inductive DataType where
  | float
  | int
  | bool
  | string
  | datetime
  | floatSeries
  | stringSeries
  | stringSet
deriving DecidableEq, Repr

/-- The `.value` strings of the `_DataType` enum members. -/
def DataType.value : DataType → String
  | .float => "Float"
  | .int => "Int"
  | .bool => "Bool"
  | .string => "String"
  | .datetime => "Datetime"
  | .floatSeries => "Float Series"
  | .stringSeries => "String Series"
  | .stringSet => "String Set"

/-- Exceptions of the embedded code, one constructor per raise site
kind. `metadataInconsistency`, `mockTypeError`, `mockUndefinedAttribute`,
`mockNamespaceError` and `setCollision` embed Python
`MetadataInconsistency` objects (the mock's are kept structured rather
than as interpolated strings); `internalClientError` embeds
`InternalClientError`; `indexError` a Python `IndexError`;
`attributeError` a Python `AttributeError`; `copyUnresolved` stands for
the mock visitor's call into `CopyAttribute.resolve`, whose code is not
under `src/` and which no claim exercises. -/
inductive NError where
  | metadataInconsistency (msg : String)
  | internalClientError (msg : String)
  | mockTypeError (opName : String) (path : List String)
      (expected : String) (found : String)
  | mockUndefinedAttribute (path : List String)
  | mockNamespaceError (path : List String)
  | setCollision (path : List String)
  | indexError
  | attributeError
  | copyUnresolved (path : List String)
deriving DecidableEq, Repr

/-- Which exceptions are Python `MetadataInconsistency` instances. -/
def NError.isMetadataInconsistency : NError → Bool
  | .metadataInconsistency _ => true
  | .mockTypeError _ _ _ _ => true
  | .mockUndefinedAttribute _ => true
  | .mockNamespaceError _ => true
  | .setCollision _ => true
  | _ => false

/-- Which exceptions are Python `InternalClientError` instances. -/
def NError.isInternalClientError : NError → Bool
  | .internalClientError _ => true
  | _ => false

/-- Per-path accumulator state: `_OperationsAccumulator.__init__`. -/
structure Accumulator where
  path : List String
  type : Option DataType
  delete_ops : List Op
  modify_ops : List Op
  config_ops : List Op
  errors : List NError
deriving DecidableEq

/-- `_OperationsAccumulator(path)`: fresh state for a path. -/
def Accumulator.init (path : List String) : Accumulator :=
  { path := path, type := none, delete_ops := [], modify_ops := [],
    config_ops := [], errors := [] }

/-- `_OperationsAccumulator.get_operations`. -/
def Accumulator.get_operations (acc : Accumulator) : List Op :=
  acc.delete_ops ++ acc.modify_ops ++ acc.config_ops

/-- The `MetadataInconsistency` message recorded on a type mismatch in
`_process_modify_op` / `_process_config_op`. -/
def mismatchMsg (op : Op) (path : List String) (expected : DataType) :
    String :=
  "Cannot perform " ++ op.className ++ " operation on " ++
    path_to_str path ++ ": Attribute is not a " ++ expected.value

/-- `_OperationsAccumulator._assign_modifier` /
`_clear_modifier`: replace the held list by the new op. -/
def assign_modifier (ops : List Op) (new_op : Op) :
    Except NError (List Op) :=
  match ops, new_op with
  | _, op => .ok [op]

/-- `_OperationsAccumulator._add_modifier` / `_remove_modifier`: append
the new op, never merging. -/
def append_modifier (ops : List Op) (op : Op) :
    Except NError (List Op) :=
  .ok (ops ++ [op])

/-- `LogFloats` payload combination:
`lambda op1, op2: LogFloats(op1.path, op1.values + op2.values)`.
Reading `.values` off a non-log op raises `AttributeError` in Python. -/
def combineLogFloats : Op → Op → Except NError Op
  | .logFloats p v1, .logFloats _ v2 => .ok (.logFloats p (v1 ++ v2))
  | _, _ => .error .attributeError

/-- `LogStrings` payload combination:
`lambda op1, op2: LogStrings(op1.path, op1.values + op2.values)`. -/
def combineLogStrings : Op → Op → Except NError Op
  | .logStrings p v1, .logStrings _ v2 => .ok (.logStrings p (v1 ++ v2))
  | _, _ => .error .attributeError

/-- `isinstance(·, log_op_class)` for `log_op_class = LogFloats`. -/
def isLogFloats : Op → Bool
  | .logFloats _ _ => true
  | _ => false

/-- `isinstance(·, clear_op_class)` for `clear_op_class = ClearFloatLog`. -/
def isClearFloatLog : Op → Bool
  | .clearFloatLog _ => true
  | _ => false

/-- `isinstance(·, log_op_class)` for `log_op_class = LogStrings`. -/
def isLogStrings : Op → Bool
  | .logStrings _ _ => true
  | _ => false

/-- `isinstance(·, clear_op_class)` for `clear_op_class = ClearStringLog`. -/
def isClearStringLog : Op → Bool
  | .clearStringLog _ => true
  | _ => false

/-- `_OperationsAccumulator._log_modifier`, parametric in the
`isinstance` tests and the combination lambda, exactly mirroring the
Python branch order: empty list, single same-kind log, single clear,
two held ops, otherwise `InternalClientError`. -/
def log_modifier (isLog isClear : Op → Bool)
    (combine : Op → Op → Except NError Op)
    (ops : List Op) (new_op : Op) : Except NError (List Op) :=
  match ops with
  | [] => .ok [new_op]
  | [o] =>
    if isLog o then do
      let m ← combine o new_op
      .ok [m]
    else if isClear o then
      .ok [o, new_op]
    else
      .error (.internalClientError
        ("Preprocessing operations failed: len(ops) == " ++
          toString ops.length))
  | [o1, o2] => do
    let m ← combine o2 new_op
    .ok [o1, m]
  | _ =>
    .error (.internalClientError
      ("Preprocessing operations failed: len(ops) == " ++
        toString ops.length))

/-- `_OperationsAccumulator._process_modify_op`.  On a type mismatch the
error is recorded and nothing else changes; otherwise `_type` is set
first and then the modifier applied, so an exception escaping the
modifier (the only raising one is `_log_modifier`) leaves `_type`
already mutated — the result carries the post-mutation state together
with the raised exception. -/
def Accumulator.process_modify_op (acc : Accumulator)
    (expected : DataType) (op : Op)
    (modifier : List Op → Op → Except NError (List Op)) :
    Accumulator × Option NError :=
  match acc.type with
  | some t =>
    if t ≠ expected then
      ({ acc with errors :=
          acc.errors ++ [.metadataInconsistency
            (mismatchMsg op acc.path expected)] }, none)
    else
      let acc1 := { acc with type := some expected }
      match modifier acc1.modify_ops op with
      | .ok new_ops => ({ acc1 with modify_ops := new_ops }, none)
      | .error e => (acc1, some e)
  | none =>
    let acc1 := { acc with type := some expected }
    match modifier acc1.modify_ops op with
    | .ok new_ops => ({ acc1 with modify_ops := new_ops }, none)
    | .error e => (acc1, some e)

/-- `_OperationsAccumulator._process_config_op`. -/
def Accumulator.process_config_op (acc : Accumulator)
    (expected : DataType) (op : Op) : Accumulator × Option NError :=
  match acc.type with
  | some t =>
    if t ≠ expected then
      ({ acc with errors :=
          acc.errors ++ [.metadataInconsistency
            (mismatchMsg op acc.path expected)] }, none)
    else
      ({ acc with type := some expected, config_ops := [op] }, none)
  | none =>
    ({ acc with type := some expected, config_ops := [op] }, none)

/-- `_OperationsAccumulator.visit_delete_attribute`.  Note the branch
taken with `_type` set and no delete held indexes `self._modify_ops[0]`,
an `IndexError` when no modify op is held. -/
def Accumulator.visit_delete_attribute (acc : Accumulator) (op : Op) :
    Accumulator × Option NError :=
  match acc.type with
  | some _ =>
    if acc.delete_ops ≠ [] then
      ({ acc with modify_ops := [], config_ops := [], type := none },
        none)
    else
      match acc.modify_ops with
      | [] => (acc, some .indexError)
      | m0 :: _ =>
        ({ acc with
            delete_ops := [m0, op]
            modify_ops := []
            config_ops := []
            type := none }, none)
  | none =>
    if acc.delete_ops ≠ [] then
      (acc, none)
    else
      ({ acc with delete_ops := acc.delete_ops ++ [op] }, none)

/-- `_OperationsAccumulator.visit`: the `OperationVisitor` dispatch of
`op.accept(self)` to the per-class `visit_*` methods.
`visit_copy_attribute` raises a `MetadataInconsistency`. -/
def Accumulator.visit (acc : Accumulator) (op : Op) :
    Accumulator × Option NError :=
  match op with
  | .assignFloat _ _ => acc.process_modify_op .float op assign_modifier
  | .assignInt _ _ => acc.process_modify_op .int op assign_modifier
  | .assignBool _ _ => acc.process_modify_op .bool op assign_modifier
  | .assignString _ _ => acc.process_modify_op .string op assign_modifier
  | .assignDatetime _ _ =>
    acc.process_modify_op .datetime op assign_modifier
  | .logFloats _ _ =>
    acc.process_modify_op .floatSeries op
      (log_modifier isLogFloats isClearFloatLog combineLogFloats)
  | .logStrings _ _ =>
    acc.process_modify_op .stringSeries op
      (log_modifier isLogStrings isClearStringLog combineLogStrings)
  | .clearFloatLog _ =>
    acc.process_modify_op .floatSeries op assign_modifier
  | .clearStringLog _ =>
    acc.process_modify_op .stringSeries op assign_modifier
  | .addStrings _ _ =>
    acc.process_modify_op .stringSet op append_modifier
  | .removeStrings _ _ =>
    acc.process_modify_op .stringSet op append_modifier
  | .clearStringSet _ =>
    acc.process_modify_op .stringSet op assign_modifier
  | .configFloatSeries _ _ _ _ => acc.process_config_op .floatSeries op
  | .deleteAttribute _ => acc.visit_delete_attribute op
  | .copyAttribute _ =>
    (acc, some (.metadataInconsistency
      "No CopyAttribute should reach accumulator"))

/-- Repeated `visit` calls on one accumulator, stopping at the first
raised exception (which propagates out of `process`). -/
def Accumulator.foldOps (acc : Accumulator) :
    List Op → Accumulator × Option NError
  | [] => (acc, none)
  | op :: rest =>
    match acc.visit op with
    | (acc1, none) => acc1.foldOps rest
    | (acc1, some e) => (acc1, some e)

/-- `AccumulatedOperations` dataclass of `operations_preprocessor.py`. -/
structure AccumulatedOperations where
  upload_operations : List Op
  other_operations : List Op
  errors : List NError
deriving DecidableEq

/-- `OperationsPreprocessor.__init__`: the per-path accumulator dict
(`Dict[str, _OperationsAccumulator]`, insertion-ordered, keyed by
`path_to_str`, modelled as an association list) and the processed-ops
counter. -/
structure Preprocessor where
  accumulators : List (String × Accumulator)
  processed_ops_count : Nat
deriving DecidableEq

/-- `OperationsPreprocessor()`. -/
def Preprocessor.init : Preprocessor :=
  { accumulators := [], processed_ops_count := 0 }

/-- In-place overwrite of the accumulator stored under a key. -/
def assocUpdate (m : List (String × Accumulator)) (k : String)
    (v : Accumulator) : List (String × Accumulator) :=
  m.map (fun kv => if kv.1 = k then (k, v) else kv)

/-- `OperationsPreprocessor._process_op`:
`setdefault(path_str, _OperationsAccumulator(op.path))` followed by
`target_acc.visit(op)`.  The accumulator mutated in place stays in the
dict even when `visit` raises, so the post-mutation state is kept in
the map in both cases. -/
def Preprocessor.process_op (p : Preprocessor) (op : Op) :
    Preprocessor × Option NError :=
  let k := path_to_str op.path
  let accs :=
    match p.accumulators.lookup k with
    | some _ => p.accumulators
    | none => p.accumulators ++ [(k, Accumulator.init op.path)]
  match (accs.lookup k).getD (Accumulator.init op.path) with
  | acc =>
    match acc.visit op with
    | (acc1, e) => ({ p with accumulators := assocUpdate accs k acc1 }, e)

/-- `OperationsPreprocessor.process`: folds strictly in arrival order,
incrementing `processed_ops_count` after each successful `_process_op`;
an exception raised by `visit` propagates (only
`RequiresPreviousCompleted`, never raised in this module, is caught). -/
def Preprocessor.process (p : Preprocessor) :
    List Op → Preprocessor × Option NError
  | [] => (p, none)
  | op :: rest =>
    match p.process_op op with
    | (p1, none) =>
      Preprocessor.process
        { p1 with processed_ops_count := p1.processed_ops_count + 1 } rest
    | (p1, some e) => (p1, some e)

/-- The comparison used by `sorted(self._accumulators.items())`: Python
sorts the `(key, value)` tuples, and with all keys distinct this
compares the path strings only. -/
def accLE (a b : String × Accumulator) : Prop :=
  a.1 ≤ b.1

instance : DecidableRel accLE :=
  fun a b => inferInstanceAs (Decidable (a.1 ≤ b.1))

instance : IsTotal (String × Accumulator) accLE :=
  ⟨fun a b => le_total a.1 b.1⟩

instance : IsTrans (String × Accumulator) accLE :=
  ⟨fun _ _ _ h1 h2 => le_trans h1 h2⟩

/-- `OperationsPreprocessor.get_operations`: iterate the accumulators
sorted by path string; each contributes its operations
(`delete + modify + config`) to `other_operations` and its recorded
errors to `errors`.  This version of the source appends every operation
to `other_operations`, leaving `upload_operations` empty. -/
def Preprocessor.get_operations (p : Preprocessor) :
    AccumulatedOperations :=
  let sortedAccs := List.insertionSort accLE p.accumulators
  { upload_operations := []
    other_operations :=
      sortedAccs.flatMap (fun kv => kv.2.get_operations)
    errors := sortedAccs.flatMap (fun kv => kv.2.errors) }

/-- The typed-value union of `neptune.types` as stored by the mock
backend: one constructor per `Value` subclass the mock handles
(`Float`, `Integer`, `Boolean`, `String`, `Datetime`, `FloatSeries`,
`StringSeries`, `StringSet`).  Numeric payloads are `Int`
placeholders. -/
inductive Value where
  | float (v : Int)
  | integer (v : Int)
  | boolean (v : Bool)
  | string (v : String)
  | datetime (v : Int)
  | floatSeries (values : List Int) (min : Option Int)
      (max : Option Int) (unit : Option String)
  | stringSeries (values : List String)
  | stringSet (values : Finset String)
deriving DecidableEq

/-- The class name of a stored value, used in mock type errors. -/
def Value.className : Value → String
  | .float _ => "Float"
  | .integer _ => "Integer"
  | .boolean _ => "Boolean"
  | .string _ => "String"
  | .datetime _ => "Datetime"
  | .floatSeries _ _ _ _ => "FloatSeries"
  | .stringSeries _ => "StringSeries"
  | .stringSet _ => "StringSet"

/-- Modelled from the spec: `ContainerStructure`
(`neptune.internal.container_structure`) is not under `src/`.  Per §3 a
node of the attribute tree is either a namespace with named children
(a Python dict) or a leaf holding one typed value, and a path cannot
denote both. -/
inductive ContainerStructure where
  | ns (children : List (String × ContainerStructure))
  | leaf (v : Value)

/-- Modelled from the spec: `ContainerStructure.get` walks the tree and
returns the node at the path (a namespace dict or a leaf value) or
`None` when the path is absent. -/
def ContainerStructure.get : ContainerStructure → List String → Option ContainerStructure
  | t, [] => some t
  | .leaf _, _ :: _ => none
  | .ns cs, k :: rest =>
    match cs.lookup k with
    | some sub => ContainerStructure.get sub rest
    | none => none

/-- Modelled from the spec: `ContainerStructure.set` stores a value at
a path, creating intermediate namespaces; meeting a leaf on the way is
a namespace/attribute collision, a `MetadataInconsistency` per §7. -/
def ContainerStructure.set : ContainerStructure → List String → Value → Except NError ContainerStructure
  | _, [], v => .ok (.leaf v)
  | .leaf _, ks@(_ :: _), _ => .error (.setCollision ks)
  | .ns cs, k :: rest, v =>
    match ContainerStructure.set ((cs.lookup k).getD (.ns [])) rest v with
    | .ok sub2 =>
      .ok (.ns (if (cs.lookup k).isSome then
        cs.map (fun kv => if kv.1 = k then (k, sub2) else kv)
      else
        cs ++ [(k, sub2)]))
    | .error e => .error e

/-- Modelled from the spec: `ContainerStructure.pop` removes the node
at a path; an absent path leaves the tree unchanged. -/
def ContainerStructure.pop : ContainerStructure → List String → ContainerStructure
  | t, [] => t
  | .leaf v, _ :: _ => .leaf v
  | .ns cs, [k] => .ns (cs.filter (fun kv => kv.1 != k))
  | .ns cs, k :: rest@(_ :: _) =>
    .ns (cs.map (fun kv =>
      if kv.1 = k then (k, ContainerStructure.pop kv.2 rest) else kv))

/-- `NeptuneBackendMock.NewValueOpVisitor.visit` (dispatch of
`op.accept(visitor)` to the per-class `visit_*`): given the current
value at the path (or `none` when unset), returns the new value, `none`
for deletion, or raises.  A fresh series from `LogFloats` has default
metadata (`FloatSeries(values)` leaves `min`/`max`/`unit` at `None`). -/
def NewValueOpVisitor.visit (path : List String) (cur : Option Value)
    (op : Op) : Except NError (Option Value) :=
  match op with
  | .assignFloat _ x =>
    match cur with
    | none => .ok (some (.float x))
    | some (.float _) => .ok (some (.float x))
    | some v => .error (.mockTypeError "assign" path "Float" v.className)
  | .assignInt _ x =>
    match cur with
    | none => .ok (some (.integer x))
    | some (.integer _) => .ok (some (.integer x))
    | some v =>
      .error (.mockTypeError "assign" path "Integer" v.className)
  | .assignBool _ x =>
    match cur with
    | none => .ok (some (.boolean x))
    | some (.boolean _) => .ok (some (.boolean x))
    | some v =>
      .error (.mockTypeError "assign" path "Boolean" v.className)
  | .assignString _ x =>
    match cur with
    | none => .ok (some (.string x))
    | some (.string _) => .ok (some (.string x))
    | some v =>
      .error (.mockTypeError "assign" path "String" v.className)
  | .assignDatetime _ x =>
    match cur with
    | none => .ok (some (.datetime x))
    | some (.datetime _) => .ok (some (.datetime x))
    | some v =>
      .error (.mockTypeError "assign" path "Datetime" v.className)
  | .logFloats _ pts =>
    let raw := pts.map (·.value)
    match cur with
    | none => .ok (some (.floatSeries raw none none none))
    | some (.floatSeries vs mn mx u) =>
      .ok (some (.floatSeries (vs ++ raw) mn mx u))
    | some v =>
      .error (.mockTypeError "log" path "FloatSeries" v.className)
  | .logStrings _ pts =>
    let raw := pts.map (·.value)
    match cur with
    | none => .ok (some (.stringSeries raw))
    | some (.stringSeries vs) => .ok (some (.stringSeries (vs ++ raw)))
    | some v =>
      .error (.mockTypeError "log" path "StringSeries" v.className)
  | .clearFloatLog _ =>
    match cur with
    | none => .ok (some (.floatSeries [] none none none))
    | some (.floatSeries _ mn mx u) =>
      .ok (some (.floatSeries [] mn mx u))
    | some v =>
      .error (.mockTypeError "clear" path "FloatSeries" v.className)
  | .clearStringLog _ =>
    match cur with
    | none => .ok (some (.stringSeries []))
    | some (.stringSeries _) => .ok (some (.stringSeries []))
    | some v =>
      .error (.mockTypeError "clear" path "StringSeries" v.className)
  | .configFloatSeries _ mn mx u =>
    match cur with
    | none => .ok (some (.floatSeries [] mn mx u))
    | some (.floatSeries vs _ _ _) =>
      .ok (some (.floatSeries vs mn mx u))
    | some v =>
      .error (.mockTypeError "log" path "FloatSeries" v.className)
  | .addStrings _ xs =>
    match cur with
    | none => .ok (some (.stringSet xs))
    | some (.stringSet s) => .ok (some (.stringSet (s ∪ xs)))
    | some v =>
      .error (.mockTypeError "add" path "StringSet" v.className)
  | .removeStrings _ xs =>
    match cur with
    | none => .ok (some (.stringSet ∅))
    | some (.stringSet s) => .ok (some (.stringSet (s \ xs)))
    | some v =>
      .error (.mockTypeError "remove" path "StringSet" v.className)
  | .clearStringSet _ =>
    match cur with
    | none => .ok (some (.stringSet ∅))
    | some (.stringSet _) => .ok (some (.stringSet ∅))
    | some v =>
      .error (.mockTypeError "clear" path "StringSet" v.className)
  | .deleteAttribute _ =>
    match cur with
    | none => .error (.mockUndefinedAttribute path)
    | some _ => .ok none
  | .copyAttribute _ => .error (.copyUnresolved path)

/-- `NeptuneBackendMock._execute_operation`: read the node at the
operation's path; a namespace node is a `MetadataInconsistency`; then
run the visitor on the current leaf value and store the new value or
pop the path.  All raising happens before any mutation. -/
def NeptuneBackendMock.execute_operation (t : ContainerStructure)
    (op : Op) : Except NError ContainerStructure :=
  match t.get op.path with
  | some (.ns _) => .error (.mockNamespaceError op.path)
  | val =>
    let cur : Option Value :=
      match val with
      | some (.leaf v) => some v
      | _ => none
    match NewValueOpVisitor.visit op.path cur op with
    | .error e => .error e
    | .ok (some v) => t.set op.path v
    | .ok none => .ok (t.pop op.path)

/-- The loop body of `NeptuneBackendMock.execute_operations`: each
operation is attempted against the store produced so far; a raised
`NeptuneException` is appended to the failure list and the loop moves
on with the store unchanged. -/
def NeptuneBackendMock.executeLoop (t : ContainerStructure) :
    List Op → ContainerStructure × List NError
  | [] => (t, [])
  | op :: rest =>
    match NeptuneBackendMock.execute_operation t op with
    | .ok t1 => NeptuneBackendMock.executeLoop t1 rest
    | .error e =>
      match NeptuneBackendMock.executeLoop t rest with
      | (t2, es) => (t2, e :: es)

/-- `NeptuneBackendMock.execute_operations`: returns the final store,
`len(operations)` as the attempted count, and the ordered failures. -/
def NeptuneBackendMock.execute_operations (t : ContainerStructure)
    (ops : List Op) : ContainerStructure × Nat × List NError :=
  match NeptuneBackendMock.executeLoop t ops with
  | (t1, es) => (t1, ops.length, es)

/-- `Daemon.ConnectionRetryWrapper.INITIAL_RETRY_BACKOFF`. -/
def INITIAL_RETRY_BACKOFF : Nat := 2

/-- `Daemon.ConnectionRetryWrapper.MAX_RETRY_BACKOFF`. -/
def MAX_RETRY_BACKOFF : Nat := 120

/-- The observable outcome of one attempt of the wrapped call:
a normal return, a `NeptuneConnectionLostException`, or any other
exception. -/
inductive CallResult (α : Type) where
  | success (a : α)
  | connectionLost
  | otherError
deriving DecidableEq, Repr

/-- The `last_backoff_time` update of one `NeptuneConnectionLostException`
handler pass: first consecutive failure sets the initial delay,
later ones double it capped at the maximum. -/
def nextBackoff (b : Nat) : Nat :=
  if b = 0 then INITIAL_RETRY_BACKOFF else min (b * 2) MAX_RETRY_BACKOFF

/-- How one run of the wrapped call ends. -/
inductive RetryResult (α : Type) where
  | returned (a : α)
  | raised
  | pending
deriving DecidableEq, Repr

/-- `Daemon.ConnectionRetryWrapper.__call__`'s `wrapper` loop over a
script of attempt outcomes, threading `self_.last_backoff_time`: a
success resets a positive backoff to zero and returns; a connection
loss updates the backoff and retries the same call; any other exception
is re-raised at once.  An exhausted script leaves the loop still
retrying (`pending`), with the backoff reached so far. -/
def retryLoop (backoff : Nat) : List (CallResult α) → Nat × RetryResult α
  | [] => (backoff, .pending)
  | .success a :: _ => (if backoff > 0 then 0 else backoff, .returned a)
  | .connectionLost :: rest => retryLoop (nextBackoff backoff) rest
  | .otherError :: _ => (backoff, .raised)

/-- The `_DataType` an operation's accumulator visit checks against:
the `expected_type` argument passed by each `visit_*` method (`none`
for delete and copy, which take no type check). -/
def opExpectedType : Op → Option DataType
  | .assignFloat _ _ => some .float
  | .assignInt _ _ => some .int
  | .assignBool _ _ => some .bool
  | .assignString _ _ => some .string
  | .assignDatetime _ _ => some .datetime
  | .logFloats _ _ => some .floatSeries
  | .logStrings _ _ => some .stringSeries
  | .clearFloatLog _ => some .floatSeries
  | .clearStringLog _ => some .stringSeries
  | .addStrings _ _ => some .stringSet
  | .removeStrings _ _ => some .stringSet
  | .clearStringSet _ => some .stringSet
  | .configFloatSeries _ _ _ _ => some .floatSeries
  | .deleteAttribute _ => none
  | .copyAttribute _ => none

/-- Whether an operation is one of the five scalar `Assign*` classes. -/
def Op.isAssign : Op → Bool
  | .assignFloat _ _ => true
  | .assignInt _ _ => true
  | .assignBool _ _ => true
  | .assignString _ _ => true
  | .assignDatetime _ _ => true
  | _ => false

/-- The mock's `isinstance` check of an `Assign*` op against the stored
value (`visit_assign_*`). -/
def assignMatches : Op → Value → Bool
  | .assignFloat _ _, .float _ => true
  | .assignInt _ _, .integer _ => true
  | .assignBool _ _, .boolean _ => true
  | .assignString _ _, .string _ => true
  | .assignDatetime _ _, .datetime _ => true
  | _, _ => false

/-- C5 as stated is false at a concrete input: a `CopyAttribute`
reaching a fresh accumulator raises a `MetadataInconsistency`, not an
`InternalClientError`. -/
theorem c5_counterexample :
    ((Accumulator.init ["a"]).visit (.copyAttribute ["a"])).2 =
      some (.metadataInconsistency
        "No CopyAttribute should reach accumulator") ∧
    (((Accumulator.init ["a"]).visit (.copyAttribute ["a"])).2.map
      NError.isInternalClientError) = some false :=
  ⟨rfl, rfl⟩

/-- C5 (amended): folding a `CopyAttribute` into any accumulator raises
a `MetadataInconsistency` exception ("No CopyAttribute should reach
accumulator") — raised out of `visit`, with the per-path recorded error
list left unchanged — rather than an `InternalClientError`. -/
theorem c5_copy_raises (acc : Accumulator) (p : List String) :
    acc.visit (.copyAttribute p) =
      (acc, some (.metadataInconsistency
        "No CopyAttribute should reach accumulator")) ∧
    (acc.visit (.copyAttribute p)).1.errors = acc.errors :=
  ⟨rfl, rfl⟩

/-- C10: with `inferred_type` set, no delete held and no modify op held
(the state produced by a lone `ConfigFloatSeries`), folding a
`DeleteAttribute` raises `IndexError` from `self._modify_ops[0]` and
mutates nothing; in particular `ConfigFloatSeries` then
`DeleteAttribute` on a fresh path ends in that `IndexError`. -/
theorem c10_delete_after_config_indexerror (acc : Accumulator)
    (t : DataType) (p q : List String) (mn mx : Option Int)
    (u : Option String) (h1 : acc.type = some t)
    (h2 : acc.delete_ops = []) (h3 : acc.modify_ops = []) :
    acc.visit (.deleteAttribute p) = (acc, some .indexError) ∧
    (Accumulator.init q).foldOps
        [.configFloatSeries q mn mx u, .deleteAttribute q] =
      ({ Accumulator.init q with
          type := some .floatSeries
          config_ops := [.configFloatSeries q mn mx u] },
        some .indexError) := by
  constructor
  · simp [Accumulator.visit, Accumulator.visit_delete_attribute, h1, h2,
      h3]
  · rfl

/-- Witness for C10 at a concrete accumulator state. -/
theorem c10_delete_after_config_indexerror_witness :
    ({ path := ["a"], type := some .floatSeries, delete_ops := [],
        modify_ops := [], config_ops := [], errors := [] } :
          Accumulator).visit (.deleteAttribute ["a"]) =
      ({ path := ["a"], type := some .floatSeries, delete_ops := [],
          modify_ops := [], config_ops := [], errors := [] },
        some .indexError) ∧
    (Accumulator.init ["a"]).foldOps
        [.configFloatSeries ["a"] (some 7) (some 70) (some "%"),
          .deleteAttribute ["a"]] =
      ({ Accumulator.init ["a"] with
          type := some .floatSeries
          config_ops :=
            [.configFloatSeries ["a"] (some 7) (some 70) (some "%")] },
        some .indexError) :=
  c10_delete_after_config_indexerror _ .floatSeries ["a"] ["a"]
    (some 7) (some 70) (some "%") rfl rfl rfl

/-- C8: the retry wrapper's backoff is 2 (the fixed initial value)
after the first consecutive connectivity failure, doubles capped at 120
on each further one, resets to zero on any successful call, and any
non-connectivity exception is re-raised at once without retrying. -/
theorem c8_retry_backoff {α : Type} (a : α) (b : Nat)
    (script rest : List (CallResult α)) (hb : 0 < b) :
    retryLoop 0 (.connectionLost :: script) =
      retryLoop INITIAL_RETRY_BACKOFF script ∧
    INITIAL_RETRY_BACKOFF = 2 ∧
    retryLoop b (.connectionLost :: script) =
      retryLoop (min (b * 2) MAX_RETRY_BACKOFF) script ∧
    MAX_RETRY_BACKOFF = 120 ∧
    retryLoop b (.success a :: rest) = (0, .returned a) ∧
    retryLoop b (.otherError :: rest) = (b, .raised) := by
  refine ⟨rfl, rfl, ?_, rfl, ?_, rfl⟩
  · simp [retryLoop, nextBackoff, Nat.pos_iff_ne_zero.mp hb]
  · simp [retryLoop, hb]

/-- Witness for C8 at backoff 2 and a concrete script. -/
theorem c8_retry_backoff_witness :
    retryLoop 0 (.connectionLost :: [.success (0 : Nat)]) =
      retryLoop INITIAL_RETRY_BACKOFF [.success 0] ∧
    INITIAL_RETRY_BACKOFF = 2 ∧
    retryLoop 2 (.connectionLost :: [.success (0 : Nat)]) =
      retryLoop (min (2 * 2) MAX_RETRY_BACKOFF) [.success 0] ∧
    MAX_RETRY_BACKOFF = 120 ∧
    retryLoop 2 (.success (0 : Nat) :: []) = (0, .returned 0) ∧
    retryLoop 2 (.otherError :: ([] : List (CallResult Nat))) =
      (2, .raised) :=
  c8_retry_backoff 0 2 [.success 0] [] (by decide)

/-- C1: series-append folding.  With a float-series (resp.
string-series) accumulator: an append into empty `modify_ops` yields
`[op]`; into a single held append of the same kind, one op with the
payloads concatenated in arrival order; into a single held clear,
`[clear, op]`; into `[clear, append]`, a merge into the trailing
append (still two ops); and a held list longer than two raises
`InternalClientError`. -/
theorem c1_log_modifier_cases (accF accS : Accumulator)
    (p q r : List String) (vs ws xs : List FloatPoint)
    (sp sq sr : List String) (svs sws sxs : List StringPoint)
    (hF : accF.type = some .floatSeries)
    (hS : accS.type = some .stringSeries) :
    (accF.modify_ops = [] →
      accF.visit (.logFloats p vs) =
        ({ accF with
            type := some .floatSeries
            modify_ops := [.logFloats p vs] }, none)) ∧
    (accF.modify_ops = [.logFloats q ws] →
      accF.visit (.logFloats p vs) =
        ({ accF with
            type := some .floatSeries
            modify_ops := [.logFloats q (ws ++ vs)] }, none)) ∧
    (accF.modify_ops = [.clearFloatLog q] →
      accF.visit (.logFloats p vs) =
        ({ accF with
            type := some .floatSeries
            modify_ops := [.clearFloatLog q, .logFloats p vs] }, none)) ∧
    (accF.modify_ops = [.clearFloatLog q, .logFloats r xs] →
      accF.visit (.logFloats p vs) =
        ({ accF with
            type := some .floatSeries
            modify_ops :=
              [.clearFloatLog q, .logFloats r (xs ++ vs)] }, none)) ∧
    (2 < accF.modify_ops.length →
      accF.visit (.logFloats p vs) =
        ({ accF with type := some .floatSeries },
          some (.internalClientError
            ("Preprocessing operations failed: len(ops) == " ++
              toString accF.modify_ops.length)))) ∧
    (accS.modify_ops = [] →
      accS.visit (.logStrings sp svs) =
        ({ accS with
            type := some .stringSeries
            modify_ops := [.logStrings sp svs] }, none)) ∧
    (accS.modify_ops = [.logStrings sq sws] →
      accS.visit (.logStrings sp svs) =
        ({ accS with
            type := some .stringSeries
            modify_ops := [.logStrings sq (sws ++ svs)] }, none)) ∧
    (accS.modify_ops = [.clearStringLog sq] →
      accS.visit (.logStrings sp svs) =
        ({ accS with
            type := some .stringSeries
            modify_ops :=
              [.clearStringLog sq, .logStrings sp svs] }, none)) ∧
    (accS.modify_ops = [.clearStringLog sq, .logStrings sr sxs] →
      accS.visit (.logStrings sp svs) =
        ({ accS with
            type := some .stringSeries
            modify_ops :=
              [.clearStringLog sq, .logStrings sr (sxs ++ svs)] },
          none)) ∧
    (2 < accS.modify_ops.length →
      accS.visit (.logStrings sp svs) =
        ({ accS with type := some .stringSeries },
          some (.internalClientError
            ("Preprocessing operations failed: len(ops) == " ++
              toString accS.modify_ops.length)))) := by
  obtain ⟨pa, ty, dl, ml, cl, er⟩ := accF
  obtain ⟨pa2, ty2, dl2, ml2, cl2, er2⟩ := accS
  simp only [] at hF hS
  subst hF hS
  refine ⟨?_, ?_, ?_, ?_, ?_, ?_, ?_, ?_, ?_, ?_⟩ <;> intro hm
  · simp only [] at hm; subst hm; rfl
  · simp only [] at hm; subst hm; rfl
  · simp only [] at hm; subst hm; rfl
  · simp only [] at hm; subst hm; rfl
  · simp only [] at hm
    rcases ml with _ | ⟨o1, _ | ⟨o2, _ | ⟨o3, rest⟩⟩⟩
    · simp at hm
    · simp at hm
    · simp at hm
    · rfl
  · simp only [] at hm; subst hm; rfl
  · simp only [] at hm; subst hm; rfl
  · simp only [] at hm; subst hm; rfl
  · simp only [] at hm; subst hm; rfl
  · simp only [] at hm
    rcases ml2 with _ | ⟨o1, _ | ⟨o2, _ | ⟨o3, rest⟩⟩⟩
    · simp at hm
    · simp at hm
    · simp at hm
    · rfl

/-- C2: delete folding.  With a type inferred, no delete held and at
least one modify op held, `DeleteAttribute` moves the first held modify
op in front of the delete and clears modify/config ops and the type;
a differently-typed assign folded right after is then accepted with no
recorded error.  With no type and a delete already held, a further
delete is a no-op, so two deletes on a fresh path collapse to one. -/
theorem c2_delete_folding (acc : Accumulator) (t : DataType)
    (p : List String) (s : String) (m0 : Op) (mrest : List Op) :
    (acc.type = some t → acc.delete_ops = [] →
      acc.modify_ops = m0 :: mrest →
      acc.visit (.deleteAttribute p) =
        ({ acc with
            delete_ops := [m0, .deleteAttribute p]
            modify_ops := []
            config_ops := []
            type := none }, none)) ∧
    (acc.type = some t → acc.delete_ops = [] →
      acc.modify_ops = m0 :: mrest →
      (acc.visit (.deleteAttribute p)).1.visit (.assignString p s) =
        ({ acc with
            delete_ops := [m0, .deleteAttribute p]
            modify_ops := [.assignString p s]
            config_ops := []
            type := some .string }, none)) ∧
    (acc.type = none → acc.delete_ops ≠ [] →
      acc.visit (.deleteAttribute p) = (acc, none)) ∧
    ((Accumulator.init p).foldOps
        [.deleteAttribute p, .deleteAttribute p] =
      ({ Accumulator.init p with
          delete_ops := [.deleteAttribute p] }, none)) := by
  obtain ⟨pa, ty, dl, ml, cl, er⟩ := acc
  refine ⟨?_, ?_, ?_, ?_⟩
  · intro h1 h2 h3
    simp only [] at h1 h2 h3
    subst h1 h2 h3
    rfl
  · intro h1 h2 h3
    simp only [] at h1 h2 h3
    subst h1 h2 h3
    rfl
  · intro h1 h2
    simp only [] at h1 h2
    subst h1
    rcases dl with _ | ⟨d0, drest⟩
    · exact absurd rfl h2
    · rfl
  · rfl

/-- Witness for C2 at a concrete accumulator state. -/
theorem c2_delete_folding_witness :
    ((⟨["c"], some .string, [], [.assignString ["c"] "3"], [], []⟩ :
        Accumulator).visit (.deleteAttribute ["c"]) =
      (⟨["c"], none,
        [.assignString ["c"] "3", .deleteAttribute ["c"]], [], [], []⟩,
        none)) ∧
    (((⟨["c"], some .string, [], [.assignString ["c"] "3"], [], []⟩ :
        Accumulator).visit
          (.deleteAttribute ["c"])).1.visit (.assignString ["c"] "x") =
      (⟨["c"], some .string,
        [.assignString ["c"] "3", .deleteAttribute ["c"]],
        [.assignString ["c"] "x"], [], []⟩, none)) ∧
    ((⟨["d"], none, [.deleteAttribute ["d"]], [], [], []⟩ :
        Accumulator).visit (.deleteAttribute ["d"]) =
      (⟨["d"], none, [.deleteAttribute ["d"]], [], [], []⟩, none)) ∧
    ((Accumulator.init ["d"]).foldOps
        [.deleteAttribute ["d"], .deleteAttribute ["d"]] =
      (⟨["d"], none, [.deleteAttribute ["d"]], [], [], []⟩, none)) := by
  have h1 := c2_delete_folding
    ⟨["c"], some .string, [], [.assignString ["c"] "3"], [], []⟩
    .string ["c"] "x" (.assignString ["c"] "3") []
  have h2 := c2_delete_folding
    ⟨["d"], none, [.deleteAttribute ["d"]], [], [], []⟩
    .string ["d"] "x" (.assignString ["d"] "x") []
  exact ⟨h1.1 rfl rfl rfl, h1.2.1 rfl rfl rfl,
    h2.2.2.1 rfl (by simp), h2.2.2.2⟩

/-- C3: with `inferred_type` set, folding any modify or config
operation checked against a different type appends exactly one
`MetadataInconsistency` to the recorded errors and changes nothing
else — state mutation and error recording never both happen.  The
concrete scenario `[AssignFloat(c,3), AssignString(c,"333")]` emits
`[AssignFloat(c,3)]` plus exactly that one error for path `c`. -/
theorem c3_type_mismatch_records_one_error (acc : Accumulator)
    (t t2 : DataType) (op : Op) :
    (acc.type = some t → opExpectedType op = some t2 → t2 ≠ t →
      acc.visit op =
        ({ acc with errors := acc.errors ++
            [.metadataInconsistency (mismatchMsg op acc.path t2)] },
          none)) ∧
    (Preprocessor.init.process
        [.assignFloat ["c"] 3, .assignString ["c"] "333"]).2 = none ∧
    (Preprocessor.init.process
        [.assignFloat ["c"] 3,
          .assignString ["c"] "333"]).1.get_operations =
      { upload_operations := []
        other_operations := [.assignFloat ["c"] 3]
        errors := [.metadataInconsistency
          ("Cannot perform AssignString operation on c: " ++
            "Attribute is not a String")] } := by
  refine ⟨?_, rfl, by decide⟩
  intro h1 h2 hne
  have ht : ¬ (t = t2) := fun hh => hne hh.symm
  cases op <;> simp only [opExpectedType, Option.some.injEq,
    reduceCtorEq] at h2 <;>
    subst h2 <;>
    simp [Accumulator.visit, Accumulator.process_modify_op,
      Accumulator.process_config_op, h1, ht]

/-- Witness for C3 at the concrete mismatched-assign state. -/
theorem c3_type_mismatch_records_one_error_witness :
    ((⟨["c"], some .float, [], [.assignFloat ["c"] 3], [], []⟩ :
        Accumulator).visit (.assignString ["c"] "333") =
      (⟨["c"], some .float, [], [.assignFloat ["c"] 3], [],
        [.metadataInconsistency
          (mismatchMsg (.assignString ["c"] "333") ["c"] .string)]⟩,
        none)) ∧
    (Preprocessor.init.process
        [.assignFloat ["c"] 3, .assignString ["c"] "333"]).2 = none :=
  ⟨(c3_type_mismatch_records_one_error
      ⟨["c"], some .float, [], [.assignFloat ["c"] 3], [], []⟩
      .float .string (.assignString ["c"] "333")).1 rfl rfl
      (by decide),
    (c3_type_mismatch_records_one_error
      ⟨["c"], some .float, [], [.assignFloat ["c"] 3], [], []⟩
      .float .string (.assignString ["c"] "333")).2.1⟩

/-- One assign visit with a compatible (or unset) inferred type sets
the type and collapses `modify_ops` to the new op. -/
theorem visit_assign_ok (acc : Accumulator) (op : Op) (t : DataType)
    (ha : op.isAssign = true) (ht : opExpectedType op = some t)
    (hty : acc.type = none ∨ acc.type = some t) :
    acc.visit op =
      ({ acc with type := some t, modify_ops := [op] }, none) := by
  rcases hty with hty | hty <;>
    cases op <;>
      simp only [Op.isAssign, Bool.false_eq_true] at ha <;>
      simp only [opExpectedType, Option.some.injEq] at ht <;>
      subst ht <;>
      simp [Accumulator.visit, Accumulator.process_modify_op,
        assign_modifier, hty]

/-- Folding a nonempty sequence of same-typed assigns retains only the
last one and infers that type. -/
theorem foldOps_assigns (t : DataType) :
    ∀ (l : List Op) (acc : Accumulator) (h1 : l ≠ [])
      (_ : ∀ op ∈ l, op.isAssign = true ∧ opExpectedType op = some t)
      (_ : acc.type = none ∨ acc.type = some t),
    acc.foldOps l =
      ({ acc with type := some t, modify_ops := [l.getLast h1] }, none)
  | [], _, h1, _, _ => absurd rfl h1
  | [op], acc, _, h2, hty => by
    have hv := visit_assign_ok acc op t (h2 op (by simp)).1
      (h2 op (by simp)).2 hty
    simp [Accumulator.foldOps, hv, List.getLast]
  | op :: op2 :: rest, acc, _, h2, hty => by
    have hv := visit_assign_ok acc op t (h2 op (by simp)).1
      (h2 op (by simp)).2 hty
    have ih := foldOps_assigns t (op2 :: rest)
      { acc with type := some t, modify_ops := [op] } (by simp)
      (fun o ho => h2 o (by simp [ho])) (Or.inr rfl)
    calc acc.foldOps (op :: op2 :: rest)
        = (match acc.visit op with
            | (acc1, none) => acc1.foldOps (op2 :: rest)
            | (acc1, some e) => (acc1, some e)) := rfl
      _ = ({ acc with type := some t, modify_ops := [op] } :
            Accumulator).foldOps (op2 :: rest) := by
          simp only [hv]
      _ = ({ acc with
              type := some t
              modify_ops := [(op :: op2 :: rest).getLast (by simp)] },
            none) := by
          rw [ih]
          simp [List.getLast_cons]

/-- C9: for a nonempty sequence of `Assign*` operations all of one
type folded on a fresh path, the accumulator holds exactly the last
assign in `modify_ops` and its inferred type is that assign's type. -/
theorem c9_assign_last_wins (p : List String) (t : DataType)
    (l : List Op) (h1 : l ≠ [])
    (h2 : ∀ op ∈ l, op.isAssign = true ∧ opExpectedType op = some t) :
    (Accumulator.init p).foldOps l =
      ({ Accumulator.init p with
          type := some t
          modify_ops := [l.getLast h1] }, none) ∧
    ((Accumulator.init p).foldOps l).1.type =
      opExpectedType (l.getLast h1) := by
  have hfold := foldOps_assigns t l (Accumulator.init p) h1 h2
    (Or.inl rfl)
  refine ⟨hfold, ?_⟩
  rw [hfold]
  exact ((h2 (l.getLast h1) (l.getLast_mem h1)).2).symm

/-- Witness for C9 on three consecutive float assigns. -/
theorem c9_assign_last_wins_witness :
    (Accumulator.init ["e"]).foldOps
        [.assignFloat ["e"] 5, .assignFloat ["e"] 10,
          .assignFloat ["e"] 33] =
      (⟨["e"], some .float, [], [.assignFloat ["e"] 33], [], []⟩,
        none) := by
  have h := (c9_assign_last_wins ["e"] .float
    [.assignFloat ["e"] 5, .assignFloat ["e"] 10,
      .assignFloat ["e"] 33] (by simp) (by decide)).1
  simpa using h

/-- Witness for C1: a same-kind merge, a merge into the trailing
append after a clear, and the `InternalClientError` on a held list of
three. -/
theorem c1_log_modifier_cases_witness :
    ((⟨["c"], some .floatSeries, [],
        [.logFloats ["c"] [⟨1, some 2, 3⟩]], [], []⟩ :
          Accumulator).visit (.logFloats ["c"] [⟨10, some 20, 30⟩]) =
      (⟨["c"], some .floatSeries, [],
        [.logFloats ["c"] [⟨1, some 2, 3⟩, ⟨10, some 20, 30⟩]], [],
        []⟩, none)) ∧
    ((⟨["e"], some .stringSeries, [],
        [.clearStringLog ["e"], .logStrings ["e"] [⟨"a", none, 1⟩]],
        [], []⟩ : Accumulator).visit
          (.logStrings ["e"] [⟨"b", none, 2⟩]) =
      (⟨["e"], some .stringSeries, [],
        [.clearStringLog ["e"],
          .logStrings ["e"] [⟨"a", none, 1⟩, ⟨"b", none, 2⟩]], [],
        []⟩, none)) ∧
    ((⟨["f"], some .floatSeries, [],
        [.clearFloatLog ["f"], .clearFloatLog ["f"],
          .clearFloatLog ["f"]], [], []⟩ : Accumulator).visit
          (.logFloats ["f"] []) =
      (⟨["f"], some .floatSeries, [],
        [.clearFloatLog ["f"], .clearFloatLog ["f"],
          .clearFloatLog ["f"]], [], []⟩,
        some (.internalClientError
          "Preprocessing operations failed: len(ops) == 3"))) := by
  have hF := c1_log_modifier_cases
    ⟨["c"], some .floatSeries, [],
      [.logFloats ["c"] [⟨1, some 2, 3⟩]], [], []⟩
    ⟨["e"], some .stringSeries, [],
      [.clearStringLog ["e"], .logStrings ["e"] [⟨"a", none, 1⟩]],
      [], []⟩
    ["c"] ["c"] ["c"] [⟨10, some 20, 30⟩] [⟨1, some 2, 3⟩] []
    ["e"] ["e"] ["e"] [⟨"b", none, 2⟩] [] [⟨"a", none, 1⟩]
    rfl rfl
  have hE := c1_log_modifier_cases
    ⟨["f"], some .floatSeries, [],
      [.clearFloatLog ["f"], .clearFloatLog ["f"],
        .clearFloatLog ["f"]], [], []⟩
    ⟨["e"], some .stringSeries, [], [], [], []⟩
    ["f"] ["f"] ["f"] [] [] [] ["e"] ["e"] ["e"] [] [] []
    rfl rfl
  exact ⟨hF.2.1 rfl, hF.2.2.2.2.2.2.2.2.1 rfl,
    hE.2.2.2.2.1 (by decide)⟩

/-- C6 as stated is false at a concrete input: `RemoveStrings` on an
unset attribute is not a no-op — the mock stores `StringSet(set())`,
so the attribute becomes defined (as an empty string set). -/
theorem c6_counterexample :
    NeptuneBackendMock.execute_operation (.ns [])
        (.removeStrings ["b"] {"x"}) =
      .ok (.ns [("b", .leaf (.stringSet ∅))]) ∧
    (ContainerStructure.ns
        [("b", .leaf (.stringSet ∅))]).get ["b"] ≠ none :=
  ⟨rfl, by simp [ContainerStructure.get, List.lookup]⟩

/-- C6 (amended): on an unset path, `AddStrings` stores a string set
holding exactly the given values; `RemoveStrings` is not a no-op but
stores an empty string set, so the attribute becomes defined with the
empty-set value. -/
theorem c6_add_remove_on_unset (t : ContainerStructure)
    (p : List String) (xs : Finset String) (h : t.get p = none) :
    NeptuneBackendMock.execute_operation t (.addStrings p xs) =
      t.set p (.stringSet xs) ∧
    NeptuneBackendMock.execute_operation t (.removeStrings p xs) =
      t.set p (.stringSet ∅) := by
  constructor <;>
    simp [NeptuneBackendMock.execute_operation, Op.path, h,
      NewValueOpVisitor.visit]

/-- Witness for C6 on the empty store. -/
theorem c6_add_remove_on_unset_witness :
    NeptuneBackendMock.execute_operation (.ns [])
        (.addStrings ["b"] {"x"}) =
      (ContainerStructure.ns []).set ["b"] (.stringSet {"x"}) ∧
    NeptuneBackendMock.execute_operation (.ns [])
        (.removeStrings ["b"] {"x"}) =
      (ContainerStructure.ns []).set ["b"] (.stringSet ∅) :=
  c6_add_remove_on_unset (.ns []) ["b"] {"x"} rfl

/-- C7: the mock executor reports `len(operations)` as the attempted
count; a failing operation contributes its exception to the ordered
failure list, leaves the store unchanged for that operation, and later
operations still apply against the unchanged store; a type-mismatched
assign, a delete of an undefined attribute, and any operation whose
path denotes a namespace each fail with a `MetadataInconsistency`. -/
theorem c7_execute_operations (t : ContainerStructure) (op : Op)
    (ops rest : List Op) (e : NError) (v : Value) (p : List String)
    (cs : List (String × ContainerStructure)) :
    ((NeptuneBackendMock.execute_operations t ops).2.1 = ops.length) ∧
    (NeptuneBackendMock.execute_operation t op = .error e →
      NeptuneBackendMock.executeLoop t (op :: rest) =
        ((NeptuneBackendMock.executeLoop t rest).1,
          e :: (NeptuneBackendMock.executeLoop t rest).2)) ∧
    (op.isAssign = true → t.get op.path = some (.leaf v) →
      assignMatches op v = false →
      ∃ e2, NeptuneBackendMock.execute_operation t op = .error e2 ∧
        e2.isMetadataInconsistency = true) ∧
    (t.get p = none →
      NeptuneBackendMock.execute_operation t (.deleteAttribute p) =
        .error (.mockUndefinedAttribute p) ∧
      (NError.mockUndefinedAttribute p).isMetadataInconsistency =
        true) ∧
    (t.get op.path = some (.ns cs) →
      NeptuneBackendMock.execute_operation t op =
        .error (.mockNamespaceError op.path) ∧
      (NError.mockNamespaceError op.path).isMetadataInconsistency =
        true) := by
  refine ⟨?_, ?_, ?_, ?_, ?_⟩
  · rcases h : NeptuneBackendMock.executeLoop t ops with ⟨t1, es⟩
    simp [NeptuneBackendMock.execute_operations, h]
  · intro h
    rcases h2 : NeptuneBackendMock.executeLoop t rest with ⟨t2, es⟩
    simp [NeptuneBackendMock.executeLoop, h, h2]
  · intro h1 h2 h3
    cases op <;>
      simp only [Op.isAssign, Bool.false_eq_true] at h1 <;>
      simp only [Op.path] at h2 <;>
      cases v <;>
        simp only [assignMatches, Bool.true_eq_false] at h3 <;>
        simp [NeptuneBackendMock.execute_operation, Op.path, h2,
          NewValueOpVisitor.visit, NError.isMetadataInconsistency]
  · intro h
    simp [NeptuneBackendMock.execute_operation, Op.path, h,
      NewValueOpVisitor.visit, NError.isMetadataInconsistency]
  · intro h
    simp [NeptuneBackendMock.execute_operation, h,
      NError.isMetadataInconsistency]

/-- Witness for C7 on a concrete store with a float leaf at `a`, a
namespace at `n`, and nothing at `zz`. -/
theorem c7_execute_operations_witness :
    ((NeptuneBackendMock.execute_operations
        (.ns [("a", .leaf (.float 1)),
          ("n", .ns [("x", .leaf (.float 2))])])
        [.assignFloat ["a"] 5, .deleteAttribute ["zz"]]).2.1 = 2) ∧
    (NeptuneBackendMock.executeLoop
        (.ns [("a", .leaf (.float 1)),
          ("n", .ns [("x", .leaf (.float 2))])])
        (.assignString ["a"] "s" :: [.assignFloat ["a"] 7]) =
      ((NeptuneBackendMock.executeLoop
          (.ns [("a", .leaf (.float 1)),
            ("n", .ns [("x", .leaf (.float 2))])])
          [.assignFloat ["a"] 7]).1,
        NError.mockTypeError "assign" ["a"] "String" "Float" ::
          (NeptuneBackendMock.executeLoop
            (.ns [("a", .leaf (.float 1)),
              ("n", .ns [("x", .leaf (.float 2))])])
            [.assignFloat ["a"] 7]).2)) ∧
    (∃ e2, NeptuneBackendMock.execute_operation
        (.ns [("a", .leaf (.float 1)),
          ("n", .ns [("x", .leaf (.float 2))])])
        (.assignString ["a"] "s") = .error e2 ∧
      e2.isMetadataInconsistency = true) ∧
    (NeptuneBackendMock.execute_operation
        (.ns [("a", .leaf (.float 1)),
          ("n", .ns [("x", .leaf (.float 2))])])
        (.deleteAttribute ["zz"]) =
      .error (.mockUndefinedAttribute ["zz"])) ∧
    (NeptuneBackendMock.execute_operation
        (.ns [("a", .leaf (.float 1)),
          ("n", .ns [("x", .leaf (.float 2))])])
        (.logFloats ["n"] []) =
      .error (.mockNamespaceError ["n"])) := by
  have A := c7_execute_operations
    (.ns [("a", .leaf (.float 1)),
      ("n", .ns [("x", .leaf (.float 2))])])
    (.assignString ["a"] "s")
    [.assignFloat ["a"] 5, .deleteAttribute ["zz"]]
    [.assignFloat ["a"] 7]
    (.mockTypeError "assign" ["a"] "String" "Float")
    (.float 1) ["zz"] []
  have B := c7_execute_operations
    (.ns [("a", .leaf (.float 1)),
      ("n", .ns [("x", .leaf (.float 2))])])
    (.logFloats ["n"] []) [] []
    (.mockNamespaceError ["n"]) (.float 1) ["zz"]
    [("x", .leaf (.float 2))]
  exact ⟨A.1, A.2.1 rfl, A.2.2.1 rfl rfl rfl,
    (A.2.2.2.1 rfl).1, (B.2.2.2.2 rfl).1⟩

/-- The strict key order underneath `accLE` on distinct keys. -/
def accLT (a b : String × Accumulator) : Prop :=
  a.1 < b.1

instance : IsAntisymm (String × Accumulator) accLT :=
  ⟨fun _ _ h1 h2 => ((lt_asymm h1) h2).elim⟩

/-- A key-sorted list with pairwise-distinct keys is strictly
key-sorted. -/
theorem sorted_accLT_of_sorted_accLE
    {l : List (String × Accumulator)} (hs : l.Sorted accLE)
    (hn : (l.map Prod.fst).Nodup) : l.Sorted accLT := by
  have hne : l.Pairwise (fun a b => a.1 ≠ b.1) :=
    (List.pairwise_map).mp hn
  exact (hs.and hne).imp (fun h => lt_of_le_of_ne h.1 h.2)

/-- Two accumulator maps holding the same per-path accumulators (in
any arrival order) with distinct keys emit identical snapshots. -/
theorem get_operations_perm_invariant (p q : Preprocessor)
    (hperm : List.Perm p.accumulators q.accumulators)
    (hn : (p.accumulators.map Prod.fst).Nodup) :
    p.get_operations = q.get_operations := by
  have h1 : List.Perm (List.insertionSort accLE p.accumulators)
      p.accumulators :=
    List.perm_insertionSort _ _
  have h2 : List.Perm (List.insertionSort accLE q.accumulators)
      q.accumulators :=
    List.perm_insertionSort _ _
  have hperm2 : List.Perm (List.insertionSort accLE p.accumulators)
      (List.insertionSort accLE q.accumulators) :=
    h1.trans (hperm.trans h2.symm)
  have hn1 : ((List.insertionSort accLE p.accumulators).map
      Prod.fst).Nodup :=
    ((h1.map Prod.fst).nodup_iff).mpr hn
  have hn2 : ((List.insertionSort accLE q.accumulators).map
      Prod.fst).Nodup :=
    ((hperm2.map Prod.fst).nodup_iff).mp hn1
  have heq := List.eq_of_perm_of_sorted hperm2
    (sorted_accLT_of_sorted_accLE
      (List.sorted_insertionSort accLE _) hn1)
    (sorted_accLT_of_sorted_accLE
      (List.sorted_insertionSort accLE _) hn2)
  simp [Preprocessor.get_operations, heq]

/-- Overwriting an existing key keeps the key sequence of the map. -/
theorem assocUpdate_keys (m : List (String × Accumulator))
    (k : String) (v : Accumulator) :
    (assocUpdate m k v).map Prod.fst = m.map Prod.fst := by
  induction m with
  | nil => rfl
  | cons kv rest ih =>
    simp only [assocUpdate, List.map_cons] at *
    by_cases hk : kv.1 = k
    · simp [hk, ih]
    · simp [hk, ih]

/-- One `_process_op` call either keeps the key sequence or appends the
canonical string of the operation's path. -/
theorem process_op_keys (p : Preprocessor) (op : Op) :
    ((p.process_op op).1).accumulators.map Prod.fst =
      p.accumulators.map Prod.fst ∨
    ((p.process_op op).1).accumulators.map Prod.fst =
      p.accumulators.map Prod.fst ++ [path_to_str op.path] := by
  unfold Preprocessor.process_op
  cases hl : p.accumulators.lookup (path_to_str op.path) with
  | some acc =>
    left
    rcases hv : acc.visit op with ⟨acc1, e⟩
    simp [hl, hv, assocUpdate_keys]
  | none =>
    right
    rcases hv : (Accumulator.init op.path).visit op with ⟨acc1, e⟩
    simp [hl, hv, assocUpdate_keys]

/-- Every key created by `process` is the canonical slash-joined string
of some folded operation's path. -/
theorem process_keys : ∀ (ops : List Op) (p : Preprocessor)
    (k : String),
    k ∈ ((p.process ops).1).accumulators.map Prod.fst →
    k ∈ p.accumulators.map Prod.fst ∨
      ∃ op ∈ ops, k = path_to_str op.path := by
  intro ops
  induction ops with
  | nil => intro p k hk; exact Or.inl hk
  | cons op rest ih =>
    intro p k hk
    rcases hv : p.process_op op with ⟨p1, e⟩
    have hkeys := process_op_keys p op
    rw [hv] at hkeys
    cases e with
    | none =>
      simp only [Preprocessor.process, hv] at hk
      have hrec := ih
        { p1 with
            processed_ops_count := p1.processed_ops_count + 1 } k hk
      rcases hrec with h | h
      · have h' : k ∈ p1.accumulators.map Prod.fst := h
        rcases hkeys with he | he
        · exact Or.inl (he ▸ h')
        · rw [he] at h'
          rcases List.mem_append.mp h' with hm | hm
          · exact Or.inl hm
          · simp at hm
            exact Or.inr ⟨op, by simp, hm⟩
      · rcases h with ⟨o, ho, hko⟩
        exact Or.inr ⟨o, by simp [ho], hko⟩
    | some e =>
      simp only [Preprocessor.process, hv] at hk
      rcases hkeys with he | he
      · exact Or.inl (he ▸ hk)
      · rw [he] at hk
        rcases List.mem_append.mp hk with hm | hm
        · exact Or.inl hm
        · simp at hm
          exact Or.inr ⟨op, by simp, hm⟩

/-- C4: `get_operations` iterates the per-path accumulators as a
key-sorted permutation of the stored map, emitting per path
`delete_ops + modify_ops + config_ops` into `other_operations` and the
recorded errors in the same path order; the snapshot is therefore
independent of arrival order; and every key is the canonical
slash-joined string of some processed operation's path. -/
theorem c4_lexicographic_emission (p q : Preprocessor) (ops : List Op)
    (k : String) :
    (∃ l, List.Perm l p.accumulators ∧ l.Sorted accLE ∧
      p.get_operations.other_operations =
        l.flatMap (fun kv => kv.2.get_operations) ∧
      p.get_operations.errors =
        l.flatMap (fun kv => kv.2.errors)) ∧
    (List.Perm p.accumulators q.accumulators →
      (p.accumulators.map Prod.fst).Nodup →
      p.get_operations = q.get_operations) ∧
    (k ∈ ((Preprocessor.init.process ops).1).accumulators.map
        Prod.fst →
      ∃ op ∈ ops, k = path_to_str op.path) := by
  refine ⟨⟨List.insertionSort accLE p.accumulators,
    List.perm_insertionSort _ _, List.sorted_insertionSort _ _,
    rfl, rfl⟩, get_operations_perm_invariant p q, ?_⟩
  intro hk
  rcases process_keys ops Preprocessor.init k hk with h | h
  · simp [Preprocessor.init] at h
  · exact h

/-- Witness for C4: two arrival orders of the same two accumulators
produce one snapshot, and the key "b" traces back to a processed
path. -/
theorem c4_lexicographic_emission_witness :
    (Preprocessor.mk
        [("b", Accumulator.init ["b"]), ("a", Accumulator.init ["a"])]
        0).get_operations =
      (Preprocessor.mk
        [("a", Accumulator.init ["a"]), ("b", Accumulator.init ["b"])]
        0).get_operations ∧
    (∃ op ∈ [Op.assignFloat ["b"] 1, Op.assignFloat ["a"] 2],
      "b" = path_to_str op.path) := by
  have A := c4_lexicographic_emission
    ⟨[("b", Accumulator.init ["b"]), ("a", Accumulator.init ["a"])],
      0⟩
    ⟨[("a", Accumulator.init ["a"]), ("b", Accumulator.init ["b"])],
      0⟩
    [Op.assignFloat ["b"] 1, Op.assignFloat ["a"] 2] "b"
  refine ⟨A.2.1 (List.Perm.swap _ _ _) (by decide), A.2.2 (by decide)⟩
